import Mathlib

/-!
Shallow embedding of `src/dupe_checker.py` (iTunesDupeChecker).

The program reconciles an iTunes library XML export against a directory walk
of the file system.  Its state is two module-level dictionaries:

* `file_path_dict : path -> FileAttributes` (the Reconciliation Store), and
* `checksums_dict : checksum -> list of FileAttributes` (the duplicate index).

The embedding models these dictionaries as insertion-ordered association
lists (Python dicts preserve insertion order, and updating an existing key
keeps its position).  External effects are modelled at their boundary:

* the `cksum` subprocess of `checksum_file` (lines 51-54) is an oracle
  `CkOracle`; `none` models any exception raised while computing the
  checksum (subprocess failure, and — under Python 3, where
  `subprocess.check_output` returns `bytes` — the `result.split(' ')`
  `TypeError` as well);
* the XML traversal of `read_itunes_library` (lines 79-118) is modelled as
  the list of per-track results it produces: a decoded location plus the
  current `<key>` text; a `none` location models any entry whose processing
  raised (missing `Name`/`Location`, decode failure), which the inner
  `except` catches, skipping the entry;
* the thread pool of `calculate_all_checksums` (lines 71-77) completes all
  dispatched `process_file` tasks before `pool.join()` returns; the store it
  produces is the result of the per-file tasks in some completion order,
  modelled as a fold over one enumeration list.
-/

namespace DupeChecker

/-- `FileAttributes` (lines 36-42).  Field defaults are the `__init__`
defaults; the integer sentinel `-1` of `itunes_key` is modelled as `none`,
and a key text read from the XML as `some`. -/
structure FileAttributes where
  file_path : Option String := none
  file_name : Option String := none
  checksum : Option Nat := none
  itunes_key : Option String := none
  itunes_file_path : Option String := none
deriving Repr, DecidableEq

/-- The Reconciliation Store: `file_path_dict`, a Python dict from path to
`FileAttributes`, as an insertion-ordered association list with unique keys. -/
abbrev Store := List (String × FileAttributes)

/-- Dict lookup `file_path_dict[k]` / `k in file_path_dict`. -/
def storeGet : Store → String → Option FileAttributes
  | [], _ => none
  | p :: rest, k => if p.1 = k then some p.2 else storeGet rest k

/-- Dict assignment `file_path_dict[k] = v`: update in place when the key
exists (keeping its position, as Python dicts do), else append. -/
def storeSet : Store → String → FileAttributes → Store
  | [], k, v => [(k, v)]
  | p :: rest, k, v => if p.1 = k then (k, v) :: rest else p :: storeSet rest k v

/-- `path_leaf` (lines 45-48): the last path component, splitting on `/` and
`\` like `ntpath.split` does (tail of the split, or the base name of the head
when the path ends in a separator).  Windows drive-letter special cases of
`ntpath` are not modelled; no path used here has one. -/
def path_leaf (p : String) : String :=
  let r := (p.data.reverse).dropWhile (fun c => c == '/' || c == '\\')
  ⟨(r.takeWhile (fun c => !(c == '/' || c == '\\'))).reverse⟩

/-- The checksum oracle: the observable behaviour of `checksum_file`
(lines 51-54), which runs the external `cksum` tool and takes the first
(numeric) field of its output.  `none` models a raised exception. -/
abbrev CkOracle := String → Option Nat

/-- The record `process_file` builds for a scanned file (lines 60-63). -/
def scanRecord (file_name : String) (c : Nat) : FileAttributes :=
  { file_path := some file_name
    file_name := some (path_leaf file_name)
    checksum := some c
    itunes_key := none
    itunes_file_path := none }

/-- `process_file` (lines 57-68), one worker task.  `checksum_file` is
called first (line 59); if it raises, the record is never constructed and the
store is untouched — the exception propagates out of the worker and
`pool.apply_async` silently drops it (its result object is never retrieved),
so no warning is printed either.  On success the new record replaces any
existing record for that path (line 66 assigns a fresh `FileAttributes`). -/
def process_file (ck : CkOracle) (st : Store) (file_name : String) : Store :=
  match ck file_name with
  | none => st
  | some c => storeSet st file_name (scanRecord file_name c)

/-- `calculate_all_checksums` (lines 71-77): walks the tree, dispatches
`process_file` for every discovered file, then `pool.close(); pool.join()`.
The join completes every dispatched task before returning; the resulting
store is the fold of the per-file tasks over the enumeration (task completion
order is immaterial to the claims proved below, which are order-independent
or evaluated on concrete lists). -/
def calculate_all_checksums (ck : CkOracle) (st : Store) (files : List String) : Store :=
  files.foldl (process_file ck) st

/-- One track entry as `read_itunes_library` (lines 86-114) extracts it:
`loc` is `unquote(this_dict['Location']).replace('file://','')` (line 100),
`none` when the entry's processing raised (missing `Name` or `Location`,
decode failure) so the `except` at line 113 skipped it; `ikey` is the
enclosing `<key>` text (`cur_key`), `none` for the `-1` sentinel. -/
structure CatalogEntry where
  loc : Option String := none
  ikey : Option String := none
deriving Repr, DecidableEq

/-- The store mutation for one catalog entry (lines 102-112): if the path is
absent a blank `FileAttributes()` is created (line 106); either way
`itunes_file_path` and `itunes_key` are then set on the record at that key
(lines 107-108), leaving `file_path`, `file_name`, `checksum` as they were. -/
def merge_entry (st : Store) (e : CatalogEntry) : Store :=
  match e.loc with
  | none => st
  | some p =>
    match storeGet st p with
    | none =>
      storeSet st p
        { file_path := none, file_name := none, checksum := none
          itunes_key := e.ikey, itunes_file_path := some p }
    | some r => storeSet st p { r with itunes_key := e.ikey, itunes_file_path := some p }

/-- `read_itunes_library` (lines 79-118): merge every extracted entry into
the store, in document order. -/
def read_itunes_library (st : Store) (entries : List CatalogEntry) : Store :=
  entries.foldl merge_entry st

/-- The duplicate index: `checksums_dict`, a Python dict from checksum to a
list of `FileAttributes`, again as an insertion-ordered association list. -/
abbrev ChecksumMap := List (Nat × List FileAttributes)

/-- Lookup `checksums_dict[c]`, defaulting to the empty list when absent. -/
def cmGet : ChecksumMap → Nat → List FileAttributes
  | [], _ => []
  | p :: rest, c => if p.1 = c then p.2 else cmGet rest c

/-- `checksums_dict[c].append(fd)`, creating the entry when absent
(lines 173-175). -/
def cmAppend : ChecksumMap → Nat → FileAttributes → ChecksumMap
  | [], c, fd => [(c, [fd])]
  | p :: rest, c, fd =>
    if p.1 = c then (p.1, p.2 ++ [fd]) :: rest else p :: cmAppend rest c fd

/-- `create_dupes_map` (lines 168-179): for every store record with a
non-null checksum, append the record to `checksums_dict[checksum]`.  Note
that the function never clears `checksums_dict`: it appends onto whatever
the global dict already holds, so it takes and returns the dict. -/
def create_dupes_map (cd : ChecksumMap) (st : Store) : ChecksumMap :=
  st.foldl
    (fun cd p =>
      match p.2.checksum with
      | none => cd
      | some c => cmAppend cd c p.2)
    cd

/-- The three destinations of the first report loop plus its completion
flag.  `ok = false` models a raised exception in the loop body: the `except`
handler at lines 141-142 evaluates `details.message`, which does not exist
on Python 3 exceptions, so the handler itself raises and nothing after the
failing record is written. -/
structure Loop1Out where
  o1 : List (String × String)
  o2 : List (String × String)
  o3 : List (String × String)
  ok : Bool
deriving Repr, DecidableEq

/-- The classification of one record by the first report loop
(lines 135-140): output 1 when `itunes_file_path` is `None` (writing
`file_name` and `file_path` — concatenating `None` raises, modelled as
`none`), output 2 when `file_path` is `None` (writing the leaf and full
catalog path), output 3 otherwise. -/
def classify (fd : FileAttributes) : Option (Nat × String × String) :=
  match fd.itunes_file_path with
  | none =>
    match fd.file_name, fd.file_path with
    | some n, some p => some (1, n, p)
    | _, _ => none
  | some ip =>
    match fd.file_path with
    | none => some (2, path_leaf ip, ip)
    | some p =>
      match fd.file_name with
      | some n => some (3, n, p)
      | none => none

/-- The first report loop of `generate_reports` (lines 130-144): classify
each record in store order; a record that raises stops the loop (records
before it were already written, records after it are dropped). -/
def report_loop1 : List (String × FileAttributes) → Loop1Out
  | [] => ⟨[], [], [], true⟩
  | p :: rest =>
    match classify p.2 with
    | none => ⟨[], [], [], false⟩
    | some (i, pr) =>
      let l := report_loop1 rest
      if i = 1 then ⟨pr :: l.o1, l.o2, l.o3, l.ok⟩
      else if i = 2 then ⟨l.o1, pr :: l.o2, l.o3, l.ok⟩
      else ⟨l.o1, l.o2, pr :: l.o3, l.ok⟩

/-- Output 4 rows, duplicate warnings, and whether the loop raised. -/
structure DupesOut where
  out4 : List (String × String)
  warnings : List String
  raised : Bool
deriving Repr, DecidableEq

/-- The duplicate-report loop of `generate_reports` (lines 148-166).  Its
first statement per group is `if file_data_array.len() > 1` (line 152) —
Python lists have no `len` method (only the builtin `len(...)`), so the very
first iteration raises `AttributeError`; the bare `except:` at line 165
catches it, but its handler reads `details.message` where `details` is an
unbound name (the `except ... as details` binding of the earlier handler is
scoped to that handler and deleted on exit in Python 3), raising `NameError`.
Net effect: with a nonempty `checksums_dict` the loop writes no row to
output 4 and prints no duplicate warning; with an empty dict the body never
runs and nothing is written either. -/
def dupes_pass (cd : ChecksumMap) : DupesOut :=
  match cd with
  | [] => ⟨[], [], false⟩
  | _ :: _ => ⟨[], [], true⟩

/-- The outcome of one `generate_reports` call: the four outputs, the
duplicate warnings, and which of the two loops raised. -/
structure Reports where
  out1 : List (String × String)
  out2 : List (String × String)
  out3 : List (String × String)
  out4 : List (String × String)
  dupWarnings : List String
  err1 : Bool
  errDupes : Bool
deriving Repr, DecidableEq

/-- `generate_reports` (lines 120-166): first `create_dupes_map()` extends
the global `checksums_dict` (line 123), then the classification loop runs
over the store, then — only if that loop did not raise — the duplicate loop
runs over `checksums_dict`.  Returns the updated global dict together with
the emitted rows. -/
def generate_reports (cd : ChecksumMap) (st : Store) : ChecksumMap × Reports :=
  if (report_loop1 st).ok then
    (create_dupes_map cd st,
     { out1 := (report_loop1 st).o1
       out2 := (report_loop1 st).o2
       out3 := (report_loop1 st).o3
       out4 := (dupes_pass (create_dupes_map cd st)).out4
       dupWarnings := (dupes_pass (create_dupes_map cd st)).warnings
       err1 := false
       errDupes := (dupes_pass (create_dupes_map cd st)).raised })
  else
    (create_dupes_map cd st,
     { out1 := (report_loop1 st).o1
       out2 := (report_loop1 st).o2
       out3 := (report_loop1 st).o3
       out4 := []
       dupWarnings := []
       err1 := true
       errDupes := false })

/-- Destination of the output-1 stream (`fh_not_in_itunes_db`, line 125). -/
def report1_file (report_path : String) : String := report_path ++ "not_in_itunes.csv"

/-- Destination of the output-2 stream (`fh_missing_file`, line 126) — the
source opens `not_in_itunes.csv` here too. -/
def report2_file (report_path : String) : String := report_path ++ "not_in_itunes.csv"

/-- Destination of the output-3 stream (`fh_file_in_itunes_db`, line 127). -/
def report3_file (report_path : String) : String := report_path ++ "file_in_itunes.csv"

/-- Destination of the output-4 stream (`fh_dupe_file_orig_in_itunes`,
line 128). -/
def report4_file (report_path : String) : String :=
  report_path ++ "dupe_file_orig_in_itunes.csv"

/-- Python `s.startswith(p)`, written over the character lists so that
concrete instances reduce in the kernel. -/
def str_startswith (s p : String) : Bool := p.data.isPrefixOf s.data

/-- One pass of Python `s.replace(old, new)`: scan left to right, replacing
every non-overlapping occurrence of `old` (assumed nonempty) by `new`.
`fuel` bounds the recursion by the input length, keeping the definition
structurally recursive (each step consumes at least one character). -/
def replaceLoop (old new : List Char) : Nat → List Char → List Char
  | 0, l => l
  | _, [] => []
  | fuel + 1, c :: rest =>
    if old.isPrefixOf (c :: rest) then
      new ++ replaceLoop old new fuel (List.drop (old.length - 1) rest)
    else c :: replaceLoop old new fuel rest

/-- Python `s.replace(old, new)` for a nonempty pattern (every pattern used
by the program is nonempty; Python's empty-pattern behaviour is not needed). -/
def str_replace (s old new : String) : String :=
  ⟨replaceLoop old.data new.data s.data.length s.data⟩

/-- The comment test of the argument pre-filter (line 195): an argument is
dropped when it starts with `#`, `--#` or `-#`. -/
def commented (a : String) : Bool :=
  str_startswith a "#" || str_startswith a "--#" || str_startswith a "-#"

/-- The argument pre-filter (lines 193-196): keep exactly the arguments that
are not commented out. -/
def good_args (argv : List String) : List String :=
  argv.filter (fun a => !(commented a))

/-- The three option values argparse produces (lines 184-190); defaults are
the empty string. -/
structure Args where
  xml_file : String := ""
  itunes_dir : String := ""
  cache_file : String := ""
deriving Repr, DecidableEq

/-- The argparse call of line 198 at this program's interface: the three
declared long options `--xml`, `--dir`, `--cache`, each taking the following
argument as its value, later occurrences overriding earlier ones; anything
else is a parse error (`none`).  Abbreviated and `--opt=value` spellings are
not modelled — the claims below only concern the pre-filter. -/
def parse_args : List String → Args → Option Args
  | [], acc => some acc
  | "--xml" :: v :: rest, acc => parse_args rest { acc with xml_file := v }
  | "--dir" :: v :: rest, acc => parse_args rest { acc with itunes_dir := v }
  | "--cache" :: v :: rest, acc => parse_args rest { acc with cache_file := v }
  | _, _ => none

/-- The snapshot path of a fresh run (line 219):
`xml_file.replace('.xml', '.pkl').replace(' ', '_')` — Python `str.replace`
replaces every occurrence, applied to the full XML path. -/
def cache_file_name (xml_file : String) : String :=
  str_replace (str_replace xml_file ".xml" ".pkl") " " "_"

/-- Modelled from the spec: the snapshot-path derivation as the claim words
it — the `.xml` *extension* replaced by `.pkl`, spaces replaced by
underscores.  Stated only to be compared against `cache_file_name`, the
derivation the source performs. -/
def cache_file_name_ext (xml_file : String) : String :=
  str_replace
    (if ".xml".data.isSuffixOf xml_file.data then
      ⟨xml_file.data.take (xml_file.data.length - 4)⟩ ++ ".pkl"
    else xml_file)
    " " "_"

/-- The observable outcome of a fresh (non-cached) run of `__main__`. -/
structure RunResult where
  store : Store
  cachePath : String
  snapshot : Option Store
  snapshotWarning : Bool
  reports : ChecksumMap × Reports
deriving Repr, DecidableEq

/-- The fresh-run branch of `__main__` (lines 215-225 and 236-238, taken
when no `--cache` argument is given): scan, parse the catalog, then attempt
to pickle the whole `file_path_dict` to the derived cache path —
`snapshotOk = false` models any exception from `open`/`pickle.dump`, which
the `except` at line 224 catches and prints, after which execution falls
through to `generate_reports` unconditionally. -/
def fresh_run (ck : CkOracle) (files : List String) (entries : List CatalogEntry)
    (snapshotOk : Bool) (xml_file : String) : RunResult :=
  let st := read_itunes_library (calculate_all_checksums ck [] files) entries
  { store := st
    cachePath := cache_file_name xml_file
    snapshot := if snapshotOk then some st else none
    snapshotWarning := !snapshotOk
    reports := generate_reports [] st }

/-- A single store mutation, from either of the two producers: a completed
scanner task (`process_file`) or one catalog-entry merge. -/
inductive StoreOp where
  | scan (file_name : String)
  | catalog (e : CatalogEntry)

/-- Apply one store mutation. -/
def applyOp (ck : CkOracle) (st : Store) : StoreOp → Store
  | .scan f => process_file ck st f
  | .catalog e => merge_entry st e

/-- Every store the program can build: some interleaving of scanner tasks
and catalog merges applied to the initially empty `file_path_dict`. -/
def runOps (ck : CkOracle) (ops : List StoreOp) : Store :=
  ops.foldl (applyOp ck) []

/-- The records of the store whose checksum equals `c`, in store order —
what `create_dupes_map` appends to `checksums_dict[c]` in one pass. -/
def recordsWithChecksum : Store → Nat → List FileAttributes
  | [], _ => []
  | p :: rest, c =>
    if p.2.checksum = some c then p.2 :: recordsWithChecksum rest c
    else recordsWithChecksum rest c

/-! Concrete fixtures used by the claim theorems below. -/

/-- A scanner-only record (no catalog entry), checksum 100. -/
def fdA : FileAttributes :=
  { file_path := some "/m/a.mp3", file_name := some "a.mp3", checksum := some 100 }

/-- A catalog-linked record with the same checksum 100. -/
def fdB : FileAttributes :=
  { file_path := some "/m/b.mp3", file_name := some "b.mp3", checksum := some 100,
    itunes_key := some "1001", itunes_file_path := some "/m/b.mp3" }

/-- A store holding one duplicate group of two records, exactly one of them
catalog-linked: `fdA` is a non-canonical member of the group. -/
def stC1 : Store := [("/m/a.mp3", fdA), ("/m/b.mp3", fdB)]

/-- Duplicate-group member with no catalog entry (the spec's `A`). -/
def fdA2 : FileAttributes :=
  { file_path := some "/m/p.mp3", file_name := some "p.mp3", checksum := some 200 }

/-- The unique catalog-linked member of the group (the spec's `B`). -/
def fdB2 : FileAttributes :=
  { file_path := some "/m/q.mp3", file_name := some "q.mp3", checksum := some 200,
    itunes_key := some "2002", itunes_file_path := some "/m/q.mp3" }

/-- Second non-catalog member (the spec's `C`). -/
def fdC2 : FileAttributes :=
  { file_path := some "/m/r.mp3", file_name := some "r.mp3", checksum := some 200 }

/-- The spec's canonical-selection example group `[A(none), B(X), C(none)]`. -/
def stC2 : Store := [("/m/p.mp3", fdA2), ("/m/q.mp3", fdB2), ("/m/r.mp3", fdC2)]

/-- An oracle whose checksum computation raises for `/m/bad.mp3` only. -/
def ckC3 : CkOracle := fun s => if s = "/m/bad.mp3" then none else some 7

/-- An oracle whose checksum computation raises for `/m/y.mp3` only. -/
def ckC5 : CkOracle := fun s => if s = "/m/y.mp3" then none else some 9

/-- An oracle that always succeeds with checksum 5. -/
def ckC6 : CkOracle := fun _ => some 5

/-- An oracle that always succeeds with checksum 1. -/
def ckC7 : CkOracle := fun _ => some 1

/-- A well-formed catalog entry for `/m/t.mp3`. -/
def entC6 : CatalogEntry := { loc := some "/m/t.mp3", ikey := some "3003" }

/-- An existing scanner record at the same path as `entC6`. -/
def rC6 : FileAttributes :=
  { file_path := some "/m/t.mp3", file_name := some "t.mp3", checksum := some 3 }

/-- A store with a single checksummed record — its checksum is unique, so it
belongs to no duplicate group. -/
def fdS : FileAttributes :=
  { file_path := some "/m/s.mp3", file_name := some "s.mp3", checksum := some 100 }

/-- The one-record store used for the report-idempotence claim. -/
def stC8 : Store := [("/m/s.mp3", fdS)]

/-! Helper lemmas about the store, the duplicate index and the report
generator, shared by the claim theorems. -/

theorem storeGet_storeSet_self (st : Store) (k : String) (v : FileAttributes) :
    storeGet (storeSet st k v) k = some v := by
  induction st with
  | nil => simp [storeSet, storeGet]
  | cons p rest ih =>
    by_cases h : p.1 = k
    · simp [storeSet, storeGet, h]
    · simp [storeSet, storeGet, h, ih]

theorem storeGet_storeSet_ne (st : Store) (k : String) (v : FileAttributes)
    (q : String) (h : q ≠ k) : storeGet (storeSet st k v) q = storeGet st q := by
  induction st with
  | nil => simp [storeSet, storeGet, Ne.symm h]
  | cons p rest ih =>
    by_cases h1 : p.1 = k
    · subst h1
      simp [storeSet, storeGet, Ne.symm h]
    · by_cases h2 : p.1 = q
      · simp [storeSet, storeGet, h1, h2, h, Ne.symm h]
      · simp [storeSet, storeGet, h1, h2, ih]

/-- What the scanner's fold leaves at each key: the last `process_file` for
that exact path on success, nothing new otherwise. -/
theorem calc_get_aux (ck : CkOracle) (files : List String) :
    ∀ (st : Store) (k : String),
      storeGet (files.foldl (process_file ck) st) k =
        match ck k with
        | some c => if k ∈ files then some (scanRecord k c) else storeGet st k
        | none => storeGet st k := by
  induction files with
  | nil =>
    intro st k
    cases ck k <;> simp
  | cons g rest ih =>
    intro st k
    rw [List.foldl_cons, ih]
    cases hck : ck k with
    | none =>
      by_cases hgk : k = g
      · subst hgk; simp [process_file, hck]
      · cases hg : ck g
        · simp [process_file, hg]
        · simp [process_file, hg, storeGet_storeSet_ne _ _ _ _ hgk]
    | some c =>
      by_cases hm : k ∈ rest
      · simp [hm, List.mem_cons]
      · by_cases hgk : k = g
        · subst hgk
          simp [process_file, hck, storeGet_storeSet_self, List.mem_cons, hm]
        · simp [List.mem_cons, hgk, hm]
          cases hg : ck g
          · simp [process_file, hg]
          · simp [process_file, hg, storeGet_storeSet_ne _ _ _ _ hgk]

theorem storeGet_calc_not_mem (ck : CkOracle) (st : Store) (files : List String)
    (f : String) (h : f ∉ files) :
    storeGet (calculate_all_checksums ck st files) f = storeGet st f := by
  have := calc_get_aux ck files st f
  rw [calculate_all_checksums, this]
  cases ck f
  · rfl
  · simp [h]

theorem cmGet_cmAppend_self (cd : ChecksumMap) (c : Nat) (fd : FileAttributes) :
    cmGet (cmAppend cd c fd) c = cmGet cd c ++ [fd] := by
  induction cd with
  | nil => simp [cmAppend, cmGet]
  | cons p rest ih =>
    by_cases h : p.1 = c
    · simp [cmAppend, cmGet, h]
    · simp [cmAppend, cmGet, h, ih]

theorem cmGet_cmAppend_ne (cd : ChecksumMap) (c c2 : Nat) (fd : FileAttributes)
    (h : c2 ≠ c) : cmGet (cmAppend cd c fd) c2 = cmGet cd c2 := by
  induction cd with
  | nil => simp [cmAppend, cmGet, Ne.symm h]
  | cons p rest ih =>
    by_cases h1 : p.1 = c
    · subst h1
      simp [cmAppend, cmGet, Ne.symm h]
    · by_cases h2 : p.1 = c2
      · simp [cmAppend, cmGet, h1, h2, h, Ne.symm h]
      · simp [cmAppend, cmGet, h1, h2, ih]

/-- One `create_dupes_map` pass appends, per checksum, exactly the store's
records with that checksum onto whatever the index already held. -/
theorem cmGet_create (st : Store) :
    ∀ (cd : ChecksumMap) (c : Nat),
      cmGet (create_dupes_map cd st) c = cmGet cd c ++ recordsWithChecksum st c := by
  induction st with
  | nil => intro cd c; simp [create_dupes_map, recordsWithChecksum]
  | cons p rest ih =>
    intro cd c
    simp only [create_dupes_map, List.foldl_cons] at *
    cases hc : p.2.checksum with
    | none => rw [ih]; simp [recordsWithChecksum, hc]
    | some c0 =>
      rw [ih]
      by_cases h : c0 = c
      · subst h
        rw [cmGet_cmAppend_self]
        simp [recordsWithChecksum, hc]
      · rw [cmGet_cmAppend_ne _ _ _ _ (Ne.symm h)]
        simp [recordsWithChecksum, hc, h]

theorem recordsWithChecksum_length_pos (st : Store) (p : String × FileAttributes)
    (c : Nat) (hm : p ∈ st) (hc : p.2.checksum = some c) :
    1 ≤ (recordsWithChecksum st c).length := by
  induction st with
  | nil => cases hm
  | cons q rest ih =>
    rcases List.mem_cons.mp hm with h | h
    · subst h
      simp [recordsWithChecksum, hc]
    · by_cases hq : q.2.checksum = some c
      · simp [recordsWithChecksum, hq]
      · simpa [recordsWithChecksum, hq] using ih h

theorem dupes_pass_out4 (cd : ChecksumMap) : (dupes_pass cd).out4 = [] := by
  cases cd <;> rfl

theorem generate_reports_fst (cd : ChecksumMap) (st : Store) :
    (generate_reports cd st).1 = create_dupes_map cd st := by
  unfold generate_reports; split <;> rfl

theorem generate_reports_out1 (cd : ChecksumMap) (st : Store) :
    (generate_reports cd st).2.out1 = (report_loop1 st).o1 := by
  unfold generate_reports; split <;> rfl

theorem generate_reports_out2 (cd : ChecksumMap) (st : Store) :
    (generate_reports cd st).2.out2 = (report_loop1 st).o2 := by
  unfold generate_reports; split <;> rfl

theorem generate_reports_out3 (cd : ChecksumMap) (st : Store) :
    (generate_reports cd st).2.out3 = (report_loop1 st).o3 := by
  unfold generate_reports; split <;> rfl

/-- Output 4 is empty for every store and every prior index state: the
duplicate loop either raises on its first iteration or has nothing to
iterate. -/
theorem generate_reports_out4 (cd : ChecksumMap) (st : Store) :
    (generate_reports cd st).2.out4 = [] := by
  unfold generate_reports
  split
  · exact dupes_pass_out4 _
  · rfl

/-! The claim theorems. -/

/-- Claim C1, evidence of the code bug.  The claim says a record is emitted
in output 4 iff it is a non-canonical member of a duplicate group.  On the
store `stC1`, each record lands in exactly one of outputs 1-3 as claimed,
and `fdA` is a non-canonical member of the checksum-100 duplicate group of
size 2 — yet output 4 is empty and the duplicate loop terminates by raising
(`file_data_array.len()` has no such method; the bare-except handler then
hits an unbound `details`), so the claimed "iff" fails in the
only-if-emitted direction for every duplicate group. -/
theorem c1_code_bug :
    (generate_reports [] stC1).2.out1 = [("a.mp3", "/m/a.mp3")] ∧
    (generate_reports [] stC1).2.out2 = [] ∧
    (generate_reports [] stC1).2.out3 = [("b.mp3", "/m/b.mp3")] ∧
    (cmGet (generate_reports [] stC1).1 100).length = 2 ∧
    fdA.checksum = some 100 ∧
    fdA.itunes_file_path = none ∧
    (generate_reports [] stC1).2.out4 = [] ∧
    (generate_reports [] stC1).2.errDupes = true := by decide

/-- Claim C2, evidence of the code bug.  On the spec's own example group
`[A(none), B(X), C(none)]` the claim requires B to be canonical and A, C to
be reported as duplicates of B.  The code's duplicate loop raises on its
first iteration (`.len()` / unbound `details`), so nothing is written to
output 4 and no duplicate warning is printed: none of the three
canonical-selection behaviours the claim describes is ever reached. -/
theorem c2_code_bug :
    (cmGet (generate_reports [] stC2).1 200).length = 3 ∧
    fdB2.itunes_file_path = some "/m/q.mp3" ∧
    fdA2.itunes_file_path = none ∧
    fdC2.itunes_file_path = none ∧
    (generate_reports [] stC2).2.out4 = [] ∧
    (generate_reports [] stC2).2.dupWarnings = [] ∧
    (generate_reports [] stC2).2.errDupes = true := by decide

/-- Claim C3, counterexample.  The claim says a file whose checksum
computation fails still gets a `FileRecord` with a null checksum.  With the
oracle failing on `/m/bad.mp3`, the store after the scan has NO record at
all for that path (`checksum_file` raises before the record is constructed,
and the worker's exception is silently dropped by `apply_async`), while the
other file is recorded normally. -/
theorem c3_counterexample :
    storeGet (calculate_all_checksums ckC3 [] ["/m/a.mp3", "/m/bad.mp3"]) "/m/bad.mp3" = none ∧
    storeGet (calculate_all_checksums ckC3 [] ["/m/a.mp3", "/m/bad.mp3"]) "/m/a.mp3"
      = some (scanRecord "/m/a.mp3" 7) := by decide

/-- Claim C3 as amended: when the checksum computation fails for one
discovered file, no `FileRecord` is created for it (and no warning is
surfaced — the worker's exception is swallowed), while the scan of all other
files continues unaffected: the resulting store is exactly the store of the
same scan without the failing file, and the failing path maps to whatever it
mapped to before the scan. -/
theorem c3_amended (ck : CkOracle) (st : Store) (xs ys : List String) (f : String)
    (hck : ck f = none) (hxs : f ∉ xs) (hys : f ∉ ys) :
    calculate_all_checksums ck st (xs ++ f :: ys) = calculate_all_checksums ck st (xs ++ ys) ∧
    storeGet (calculate_all_checksums ck st (xs ++ f :: ys)) f = storeGet st f := by
  have heq : calculate_all_checksums ck st (xs ++ f :: ys)
      = calculate_all_checksums ck st (xs ++ ys) := by
    simp [calculate_all_checksums, List.foldl_append, List.foldl_cons, process_file, hck]
  refine ⟨heq, ?_⟩
  rw [heq]
  exact storeGet_calc_not_mem ck st (xs ++ ys) f (by simp [hxs, hys])

/-- Witness for `c3_amended` at a concrete scan. -/
theorem c3_amended_witness :
    (ckC3 "/m/bad.mp3" = none ∧ "/m/bad.mp3" ∉ ["/m/a.mp3"] ∧ "/m/bad.mp3" ∉ ["/m/c.mp3"]) ∧
    (calculate_all_checksums ckC3 [] (["/m/a.mp3"] ++ "/m/bad.mp3" :: ["/m/c.mp3"])
        = calculate_all_checksums ckC3 [] (["/m/a.mp3"] ++ ["/m/c.mp3"]) ∧
     storeGet (calculate_all_checksums ckC3 []
        (["/m/a.mp3"] ++ "/m/bad.mp3" :: ["/m/c.mp3"])) "/m/bad.mp3"
        = storeGet ([] : Store) "/m/bad.mp3") :=
  ⟨⟨by decide, by decide, by decide⟩,
   c3_amended ckC3 [] ["/m/a.mp3"] ["/m/c.mp3"] "/m/bad.mp3" (by decide) (by decide) (by decide)⟩

/-- Claim C4, evidence of the code bug.  The claim says outputs 1 and 2 go
to distinct destinations.  The source opens `not_in_itunes.csv` for BOTH the
`fh_not_in_itunes_db` handle (line 125) and the `fh_missing_file` handle
(line 126): for every report directory the two destinations are the same
file, so the two classifications share one output and clobber each other. -/
theorem c4_code_bug (report_path : String) :
    report1_file report_path = report2_file report_path ∧
    report1_file report_path = report_path ++ "not_in_itunes.csv" ∧
    report2_file report_path = report_path ++ "not_in_itunes.csv" :=
  ⟨rfl, rfl, rfl⟩

/-- Claim C5, counterexample.  The claim says that after the scanner's join
returns, every discovered file's checksum is either a computed value or a
recorded failure.  File `/m/y.mp3` is discovered, its checksum computation
fails, and afterwards the store holds nothing for it — neither a value nor
any recorded failure. -/
theorem c5_counterexample :
    storeGet (calculate_all_checksums ckC5 [] ["/m/x.mp3", "/m/y.mp3"]) "/m/y.mp3" = none ∧
    storeGet (calculate_all_checksums ckC5 [] ["/m/x.mp3", "/m/y.mp3"]) "/m/x.mp3"
      = some (scanRecord "/m/x.mp3" 9) := by decide

/-- Claim C5 as amended: the scanner's walk (modelled as completing every
dispatched task before returning, which is what `pool.close(); pool.join()`
guarantees) leaves no in-flight checksum — every record in the store the
scan produced carries the computed checksum value of its path — but a
discovered file whose checksum computation failed has no record at all
rather than a recorded failure. -/
theorem c5_amended (ck : CkOracle) (files : List String) :
    (∀ k fd, storeGet (calculate_all_checksums ck [] files) k = some fd →
        ∃ c, ck k = some c ∧ fd.checksum = some c) ∧
    (∀ f, f ∈ files → ck f = none →
        storeGet (calculate_all_checksums ck [] files) f = none) := by
  constructor
  · intro k fd h
    rw [calculate_all_checksums, calc_get_aux ck files [] k] at h
    cases hck : ck k with
    | none => simp [hck, storeGet] at h
    | some c =>
      simp only [hck] at h
      by_cases hm : k ∈ files
      · simp [hm] at h
        exact ⟨c, rfl, by rw [← h]; rfl⟩
      · simp [hm, storeGet] at h
  · intro f hm hck
    rw [calculate_all_checksums, calc_get_aux ck files [] f]
    simp [hck, storeGet]

/-- Witness for `c5_amended` at a concrete scan. -/
theorem c5_amended_witness :
    ("/m/y.mp3" ∈ ["/m/x.mp3", "/m/y.mp3"] ∧ ckC5 "/m/y.mp3" = none) ∧
    storeGet (calculate_all_checksums ckC5 [] ["/m/x.mp3", "/m/y.mp3"]) "/m/y.mp3" = none :=
  ⟨⟨by decide, by decide⟩,
   (c5_amended ckC5 ["/m/x.mp3", "/m/y.mp3"]).2 "/m/y.mp3" (by decide) (by decide)⟩

/-- Claim C6, counterexample.  The claim says no write from one source
resets to null a pointer-like field established by the other source,
regardless of order.  Here the catalog merge runs first and establishes
`itunes_file_path`/`itunes_key` on `/m/t.mp3`; a scanner task for the same
path then assigns a fresh `FileAttributes` (line 66), and both catalog
fields are back to their null sentinels. -/
theorem c6_counterexample :
    storeGet (read_itunes_library [] [entC6]) "/m/t.mp3" =
      some { file_path := none, file_name := none, checksum := none,
             itunes_key := some "3003", itunes_file_path := some "/m/t.mp3" } ∧
    storeGet (process_file ckC6 (read_itunes_library [] [entC6]) "/m/t.mp3") "/m/t.mp3" =
      some { file_path := some "/m/t.mp3", file_name := some "t.mp3", checksum := some 5,
             itunes_key := none, itunes_file_path := none } := by decide

/-- Claim C6 as amended: merging a catalog entry onto an existing record
sets only `itunes_file_path` and `itunes_key`, leaving that record's
`checksum`, `file_path` and `file_name` unchanged, and touches no other key
— so a catalog write never un-sets scanner-established fields.  (The
converse direction fails, per `c6_counterexample`: a scanner write replaces
the whole record; in the program's actual order the scanner always writes
first, so that clobbering order is never exercised by `__main__`.) -/
theorem c6_amended (st : Store) (e : CatalogEntry) (p : String) (r : FileAttributes)
    (hloc : e.loc = some p) (hr : storeGet st p = some r) :
    storeGet (merge_entry st e) p =
      some { r with itunes_key := e.ikey, itunes_file_path := some p } ∧
    ∀ q, q ≠ p → storeGet (merge_entry st e) q = storeGet st q := by
  constructor
  · simp only [merge_entry, hloc, hr]
    exact storeGet_storeSet_self st p _
  · intro q hq
    simp only [merge_entry, hloc, hr]
    exact storeGet_storeSet_ne st p _ q hq

/-- Witness for `c6_amended` on a one-record store. -/
theorem c6_amended_witness :
    (entC6.loc = some "/m/t.mp3" ∧ storeGet [("/m/t.mp3", rC6)] "/m/t.mp3" = some rC6) ∧
    storeGet (merge_entry [("/m/t.mp3", rC6)] entC6) "/m/t.mp3" =
      some { rC6 with itunes_key := entC6.ikey, itunes_file_path := some "/m/t.mp3" } :=
  ⟨⟨rfl, by decide⟩,
   (c6_amended [("/m/t.mp3", rC6)] entC6 "/m/t.mp3" rC6 rfl (by decide)).1⟩

/-- Claim C7, confirmed: for every interleaving of scanner completions and
catalog merges applied to the initially empty store, every record present
has a non-null `file_path` or a non-null `itunes_file_path` — a successful
scan task writes a record with `file_path` set, a catalog merge always sets
`itunes_file_path`, and no operation ever nulls both. -/
theorem c7_invariant (ck : CkOracle) (ops : List StoreOp) (k : String) (fd : FileAttributes)
    (h : storeGet (runOps ck ops) k = some fd) :
    fd.file_path ≠ none ∨ fd.itunes_file_path ≠ none := by
  suffices H : ∀ (l : List StoreOp) (st : Store),
      (∀ k2 fd2, storeGet st k2 = some fd2 → fd2.file_path ≠ none ∨ fd2.itunes_file_path ≠ none) →
      ∀ k2 fd2, storeGet (l.foldl (applyOp ck) st) k2 = some fd2 →
        fd2.file_path ≠ none ∨ fd2.itunes_file_path ≠ none by
    exact H ops [] (by intro k2 fd2 h2; simp [storeGet] at h2) k fd h
  intro l
  induction l with
  | nil => intro st hst k2 fd2 h2; exact hst k2 fd2 h2
  | cons op rest ih =>
    intro st hst k2 fd2 h2
    refine ih (applyOp ck st op) ?_ k2 fd2 h2
    intro k3 fd3 h3
    cases op with
    | scan f =>
      cases hck : ck f with
      | none =>
        simp only [applyOp, process_file, hck] at h3
        exact hst k3 fd3 h3
      | some c =>
        simp only [applyOp, process_file, hck] at h3
        by_cases hk : k3 = f
        · subst hk
          rw [storeGet_storeSet_self] at h3
          have h4 := Option.some.inj h3
          subst h4
          left
          simp [scanRecord]
        · rw [storeGet_storeSet_ne _ _ _ _ hk] at h3
          exact hst k3 fd3 h3
    | catalog e =>
      cases hloc : e.loc with
      | none =>
        simp only [applyOp, merge_entry, hloc] at h3
        exact hst k3 fd3 h3
      | some p =>
        cases hget : storeGet st p with
        | none =>
          simp only [applyOp, merge_entry, hloc, hget] at h3
          by_cases hk : k3 = p
          · subst hk
            rw [storeGet_storeSet_self] at h3
            have h4 := Option.some.inj h3
            subst h4
            right
            simp
          · rw [storeGet_storeSet_ne _ _ _ _ hk] at h3
            exact hst k3 fd3 h3
        | some r =>
          simp only [applyOp, merge_entry, hloc, hget] at h3
          by_cases hk : k3 = p
          · subst hk
            rw [storeGet_storeSet_self] at h3
            have h4 := Option.some.inj h3
            subst h4
            right
            simp
          · rw [storeGet_storeSet_ne _ _ _ _ hk] at h3
            exact hst k3 fd3 h3

/-- Witness for `c7_invariant` after a single scan task. -/
theorem c7_invariant_witness :
    storeGet (runOps ckC7 [StoreOp.scan "/m/w.mp3"]) "/m/w.mp3"
      = some (scanRecord "/m/w.mp3" 1) ∧
    ((scanRecord "/m/w.mp3" 1).file_path ≠ none ∨
     (scanRecord "/m/w.mp3" 1).itunes_file_path ≠ none) :=
  ⟨by decide,
   c7_invariant ckC7 [StoreOp.scan "/m/w.mp3"] "/m/w.mp3" (scanRecord "/m/w.mp3" 1) (by decide)⟩

/-- Claim C8, counterexample.  The claim says the second run's
duplicate-group derivation does not change which records count as
duplicate-group members.  On the one-record store `stC8`, the first
`generate_reports` leaves the record in a checksum-100 group of size 1 (not
a duplicate group); the second run appends it again without clearing the
global index, producing a group of size 2 — the record now counts as a
duplicate-group member. -/
theorem c8_counterexample :
    (cmGet (generate_reports [] stC8).1 100).length = 1 ∧
    (cmGet (generate_reports (generate_reports [] stC8).1 stC8).1 100).length = 2 := by decide

/-- Claim C8 as amended: two consecutive `generate_reports` calls on the
same store emit identical pairs for all four outputs (outputs 1-3 depend
only on the store; output 4 is empty on every run because the duplicate loop
raises on any nonempty index), but the duplicate-group derivation is NOT
stable: `create_dupes_map` appends into the persistent `checksums_dict`
without clearing it, so after the second call every checksummed record lies
in a group of size at least 2. -/
theorem c8_amended (st : Store) :
    ((generate_reports (generate_reports [] st).1 st).2.out1 = (generate_reports [] st).2.out1 ∧
     (generate_reports (generate_reports [] st).1 st).2.out2 = (generate_reports [] st).2.out2 ∧
     (generate_reports (generate_reports [] st).1 st).2.out3 = (generate_reports [] st).2.out3 ∧
     (generate_reports (generate_reports [] st).1 st).2.out4 = (generate_reports [] st).2.out4) ∧
    ∀ p, p ∈ st → ∀ c, p.2.checksum = some c →
      2 ≤ (cmGet (generate_reports (generate_reports [] st).1 st).1 c).length := by
  constructor
  · exact ⟨by rw [generate_reports_out1, generate_reports_out1],
           by rw [generate_reports_out2, generate_reports_out2],
           by rw [generate_reports_out3, generate_reports_out3],
           by rw [generate_reports_out4, generate_reports_out4]⟩
  · intro p hp c hc
    rw [generate_reports_fst, generate_reports_fst, cmGet_create, cmGet_create]
    have h1 : 1 ≤ (recordsWithChecksum st c).length :=
      recordsWithChecksum_length_pos st p c hp hc
    simp only [cmGet, List.length_append, List.length_nil]
    omega

/-- Witness for `c8_amended` on the one-record store. -/
theorem c8_amended_witness :
    (("/m/s.mp3", fdS) ∈ stC8 ∧ fdS.checksum = some 100) ∧
    2 ≤ (cmGet (generate_reports (generate_reports [] stC8).1 stC8).1 100).length :=
  ⟨⟨by decide, by decide⟩,
   (c8_amended stC8).2 ("/m/s.mp3", fdS) (by decide) 100 (by decide)⟩

/-- Claim C9, counterexample.  The claim words the derivation as "extension
`.xml` replaced by `.pkl`".  Python's `str.replace` substitutes every
occurrence in the full path, so on `/tmp/a.xml b.xml` the code produces
`/tmp/a.pkl_b.pkl`, while replacing only the extension would give
`/tmp/a.xml_b.pkl`. -/
theorem c9_counterexample :
    cache_file_name "/tmp/a.xml b.xml" = "/tmp/a.pkl_b.pkl" ∧
    cache_file_name_ext "/tmp/a.xml b.xml" = "/tmp/a.xml_b.pkl" ∧
    cache_file_name "/tmp/a.xml b.xml" ≠ cache_file_name_ext "/tmp/a.xml b.xml" := by decide

/-- Claim C9 as amended: on every fresh run the snapshot path is the full
XML path with every occurrence of `.xml` replaced by `.pkl` and then every
space by an underscore; the snapshot attempted is the entire store built by
the scan followed by the catalog merge; a write failure only raises the
warning flag, and the reports are generated from that same store regardless
of whether the snapshot write succeeded. -/
theorem c9_amended (ck : CkOracle) (files : List String) (entries : List CatalogEntry)
    (snapshotOk : Bool) (xml_file : String) :
    (fresh_run ck files entries snapshotOk xml_file).cachePath =
      str_replace (str_replace xml_file ".xml" ".pkl") " " "_" ∧
    (fresh_run ck files entries snapshotOk xml_file).snapshot =
      (if snapshotOk then
        some (read_itunes_library (calculate_all_checksums ck [] files) entries)
      else none) ∧
    (fresh_run ck files entries snapshotOk xml_file).snapshotWarning = !snapshotOk ∧
    (fresh_run ck files entries snapshotOk xml_file).reports =
      generate_reports [] (read_itunes_library (calculate_all_checksums ck [] files) entries) :=
  ⟨rfl, rfl, rfl, rfl⟩

/-- Claim C10, confirmed: dropping a commented-out argument (one starting
with `#`, `--#` or `-#`) anywhere in the argument list leaves the filtered
list — and hence the parsed XML file, root directory and cache file —
exactly as if the argument had never been passed. -/
theorem c10_commented_args (xs ys : List String) (a : String) (h : commented a = true) :
    good_args (xs ++ a :: ys) = good_args (xs ++ ys) ∧
    parse_args (good_args (xs ++ a :: ys)) {} = parse_args (good_args (xs ++ ys)) {} := by
  have heq : good_args (xs ++ a :: ys) = good_args (xs ++ ys) := by
    simp [good_args, List.filter_append, List.filter_cons, h]
  exact ⟨heq, by rw [heq]⟩

/-- Witness for `c10_commented_args` on a concrete argument list. -/
theorem c10_commented_args_witness :
    commented "#--dir" = true ∧
    (good_args (["--xml"] ++ "#--dir" :: ["lib.xml"]) = good_args (["--xml"] ++ ["lib.xml"]) ∧
     parse_args (good_args (["--xml"] ++ "#--dir" :: ["lib.xml"])) {} =
       parse_args (good_args (["--xml"] ++ ["lib.xml"])) {}) :=
  ⟨by decide, c10_commented_args ["--xml"] ["lib.xml"] "#--dir" (by decide)⟩

end DupeChecker




